import Mathlib

/-!
Verification of the table-reconciliation core of a Terraform provider for
ClickHouse database operations.

The development shallowly embeds the Go sources:
  * `internal/querybuilder` (CREATE / ALTER / DROP statement builders),
  * `internal/dbops/table.go` (catalog reader, delete, and the engine-full
    free-text parser),
  * `pkg/resource/table/table.go` (the resource Update diff, plan
    modification, and drift normalization).

Go strings are modelled as Lean `String`s (character-level; all inputs of
interest are ASCII, so Go's byte indices coincide with character indices).
Go `map[string]string` values are modelled as association lists in insertion
order (`mapInsert` overwrites in place like a Go map assignment); iterating a
Go map yields its entries in an unspecified order, which is modelled by
letting callers pass the entry list explicitly.
The SQL transport (`clickhouseclient`) is abstracted at its boundary: SELECT
results become explicit row lists handed to the catalog-reading functions,
and `Exec` becomes a `String → Option String` oracle giving the error (if
any) for each executed statement; functions that execute statements return
the list of statements they sent together with the final error.
-/

namespace Chdbops

/-- Whitespace predicate used by Go's `strings.TrimSpace` (ASCII portion of
`unicode.IsSpace`). -/
def isGoSpace (c : Char) : Bool :=
  c = ' ' || c = '\t' || c = '\n' || c = Char.ofNat 11 || c = Char.ofNat 12 || c = '\r'

/-- Model of Go `strings.TrimSpace`: drop leading and trailing whitespace. -/
def goTrimSpace (s : List Char) : List Char :=
  (((s.dropWhile isGoSpace).reverse).dropWhile isGoSpace).reverse

/-- Model of Go `strings.Index`: index of the first occurrence of `pat` in
`s`, or `none` when `pat` does not occur. -/
def goIndex (pat : List Char) : List Char → Option Nat
  | [] => if pat = [] then some 0 else none
  | x :: xs =>
    if pat.isPrefixOf (x :: xs) then some 0
    else (goIndex pat xs).map (· + 1)

/-- Model of Go `strings.Split` for a single-character separator (the only
form the sources use: separators are `","` and `"="`). -/
def splitOnChar (sep : Char) : List Char → List (List Char)
  | [] => [[]]
  | x :: xs =>
    if x = sep then [] :: splitOnChar sep xs
    else
      match splitOnChar sep xs with
      | [] => [[x]]
      | h :: t => (x :: h) :: t

/-- Go map assignment `m[k] = v` on an insertion-ordered association list:
overwrite in place when the key exists, append otherwise. -/
def mapInsert (m : List (String × String)) (k v : String) : List (String × String) :=
  if m.any (fun p => p.1 = k) then
    m.map (fun p => if p.1 = k then (k, v) else p)
  else
    m ++ [(k, v)]

/-- Go map lookup `m[k]` on an association list (first matching key; the
lookups in the sources are over maps with distinct keys). -/
def mapLookup (m : List (String × String)) (k : String) : Option String :=
  (m.find? (fun p => p.1 = k)).map (fun p => p.2)

/-- The single-quote character, `'`. -/
def singleQuoteChar : Char := Char.ofNat 39

/-- Modelled from the spec: the querybuilder helper `quote` (defined in a
repository file outside the provided sources) wraps a string literal value in
single quotes. -/
def quote (s : String) : String :=
  String.singleton singleQuoteChar ++ s ++ String.singleton singleQuoteChar

/-- Modelled from the spec: the querybuilder helper `backtick` (defined in a
repository file outside the provided sources) wraps an identifier in
backticks, with no escaping of embedded backticks. -/
def backtick (s : String) : String :=
  "`" ++ s ++ "`"

/-- `querybuilder.TableColumn`: Go `*string` fields become `Option String`. -/
structure TableColumn where
  name : String
  type : String
  default : Option String
  comment : Option String
deriving DecidableEq, Repr

/-- The fields of `querybuilder.createTableQueryBuilder` after the fluent
`With...` calls.  The Go `settings` map is carried as its entry list in the
order a `range` iteration yields them. -/
structure CreateTableQueryBuilder where
  databaseName : String
  tableName : String
  columns : List TableColumn
  clusterName : Option String
  engine : String
  orderBy : List String
  partitionBy : Option String
  primaryKey : List String
  sampleBy : Option String
  ttl : Option String
  settings : List (String × String)
  comment : Option String
deriving DecidableEq, Repr

/-- One column definition inside a CREATE TABLE column list
(`createTableQueryBuilder.Build`, loop body). -/
def columnDefinition (col : TableColumn) : String :=
  backtick col.name ++ " " ++ col.type
    ++ (match col.default with
        | some d => " DEFAULT " ++ d
        | none => "")
    ++ (match col.comment with
        | some c => " COMMENT " ++ quote c
        | none => "")

/-- `createTableQueryBuilder.Build`. -/
def createTableBuild (q : CreateTableQueryBuilder) : Except String String :=
  if q.databaseName = "" then .error "databaseName cannot be empty for CREATE TABLE queries"
  else if q.tableName = "" then .error "tableName cannot be empty for CREATE TABLE queries"
  else if q.columns = [] then .error "columns cannot be empty for CREATE TABLE queries"
  else if q.engine = "" then .error "engine cannot be empty for CREATE TABLE queries"
  else .ok (
    "CREATE TABLE " ++ backtick q.databaseName ++ "." ++ backtick q.tableName
    ++ (match q.clusterName with
        | some c => " ON CLUSTER " ++ quote c
        | none => "")
    ++ " (" ++ String.intercalate ", " (q.columns.map columnDefinition) ++ ")"
    ++ " ENGINE = " ++ q.engine
    ++ (if q.orderBy = [] then ""
        else " ORDER BY (" ++ String.intercalate ", " (q.orderBy.map backtick) ++ ")")
    ++ (match q.partitionBy with
        | some p => " PARTITION BY " ++ p
        | none => "")
    ++ (if q.primaryKey = [] then ""
        else " PRIMARY KEY (" ++ String.intercalate ", " (q.primaryKey.map backtick) ++ ")")
    ++ (match q.sampleBy with
        | some s => " SAMPLE BY " ++ s
        | none => "")
    ++ (match q.ttl with
        | some t => " TTL " ++ t
        | none => "")
    ++ (if q.settings = [] then ""
        else " SETTINGS " ++ String.intercalate ", " (q.settings.map (fun kv => kv.1 ++ " = " ++ kv.2)))
    ++ (match q.comment with
        | some c => " COMMENT " ++ quote c
        | none => "")
    ++ ";")

/-- The statement text of `dropTableQueryBuilder.Build` (the token join). -/
def dropStatement (databaseName tableName : String) (clusterName : Option String) : String :=
  String.intercalate " "
    (["DROP", "TABLE", backtick databaseName ++ "." ++ backtick tableName]
      ++ (match clusterName with
          | some c => ["ON", "CLUSTER", quote c]
          | none => []))
    ++ ";"

/-- `dropTableQueryBuilder.Build`. -/
def dropTableBuild (databaseName tableName : String) (clusterName : Option String) :
    Except String String :=
  if databaseName = "" then .error "databaseName cannot be empty for DROP TABLE queries"
  else if tableName = "" then .error "tableName cannot be empty for DROP TABLE queries"
  else .ok (dropStatement databaseName tableName clusterName)

/-- One ADD COLUMN clause of `AlterTableAddColumnQueryBuilder.Build` (note:
unlike CREATE TABLE, empty-string defaults and comments are skipped). -/
def addColumnClause (col : TableColumn) : String :=
  " ADD COLUMN " ++ backtick col.name ++ " " ++ col.type
    ++ (match col.default with
        | some d => if d = "" then "" else " DEFAULT " ++ d
        | none => "")
    ++ (match col.comment with
        | some c => if c = "" then "" else " COMMENT " ++ quote c
        | none => "")

/-- `AlterTableAddColumnQueryBuilder.Build`. -/
def alterTableAddColumnBuild (databaseName tableName : String) (columns : List TableColumn)
    (clusterName : Option String) : Except String String :=
  if databaseName = "" then .error "database name is required"
  else if tableName = "" then .error "table name is required"
  else if columns = [] then .error "at least one column is required"
  else .ok (
    "ALTER TABLE " ++ backtick databaseName ++ "." ++ backtick tableName
    ++ (match clusterName with
        | some c => if c = "" then "" else " ON CLUSTER " ++ quote c
        | none => "")
    ++ String.intercalate "," (columns.map addColumnClause))

/-- `AlterTableDropColumnQueryBuilder.Build`. -/
def alterTableDropColumnBuild (databaseName tableName : String) (columnNames : List String)
    (clusterName : Option String) : Except String String :=
  if databaseName = "" then .error "database name is required"
  else if tableName = "" then .error "table name is required"
  else if columnNames = [] then .error "at least one column name is required"
  else .ok (
    "ALTER TABLE " ++ backtick databaseName ++ "." ++ backtick tableName
    ++ (match clusterName with
        | some c => if c = "" then "" else " ON CLUSTER " ++ quote c
        | none => "")
    ++ String.intercalate "," (columnNames.map (fun n => " DROP COLUMN " ++ backtick n)))

/-- Whether an `Except` value is an error. -/
def isError : Except String String → Bool
  | .error _ => true
  | .ok _ => false

/-- `dbops.parseKeyColumns`: comma-split and trim, keeping non-empty pieces. -/
def parseKeyColumns (key : String) : List String :=
  if key = "" then []
  else
    ((splitOnChar ',' key.data).map goTrimSpace).filterMap
      (fun trimmed => if trimmed = [] then none else some (String.mk trimmed))

/-- `dbops.parseEngineFullForTTLAndSettings`: best-effort textual extraction
of the TTL clause and the SETTINGS pairs from the catalog's free-text
`engine_full` descriptor. -/
def parseEngineFullForTTLAndSettings (engineFull : String) : String × List (String × String) :=
  let s := engineFull.data
  let ttl : List Char :=
    match goIndex ("TTL ".data) s with
    | none => []
    | some idx =>
      let rest := s.drop (idx + 4)
      match goIndex (" SETTINGS".data) rest with
      | none => goTrimSpace rest
      | some ttlEnd => goTrimSpace (rest.take ttlEnd)
  let settings : List (String × String) :=
    match goIndex ("SETTINGS ".data) s with
    | none => []
    | some idx =>
      let pairs := splitOnChar ',' (s.drop (idx + 9))
      pairs.foldl
        (fun m pair =>
          match splitOnChar '=' (goTrimSpace pair) with
          | [k, v] => mapInsert m (String.mk (goTrimSpace k)) (String.mk (goTrimSpace v))
          | _ => m)
        []
  (String.mk ttl, settings)

/-- One row of the `system.tables` descriptor query issued by
`dbops.GetTable` (SELECT construction and transport abstracted away). -/
structure TableDescRow where
  database : String
  name : String
  engine : String
  partition_key : String
  sorting_key : String
  primary_key : String
  sampling_key : String
  engine_full : String
  comment : String
deriving DecidableEq, Repr

/-- One row of the `system.columns` query issued by `dbops.GetTable`. -/
structure ColumnRow where
  name : String
  type : String
  default_expression : String
  comment : String
deriving DecidableEq, Repr

/-- `dbops.Table`: the observed table state assembled by the catalog reader. -/
structure Table where
  uuid : String
  databaseName : String
  name : String
  engine : String
  columns : List TableColumn
  orderBy : List String
  partitionBy : Option String
  primaryKey : List String
  sampleBy : Option String
  ttl : Option String
  settings : List (String × String)
  comment : String
deriving DecidableEq, Repr

/-- The body of the `system.tables` row callback in `dbops.GetTable`:
assemble a `Table` (without columns) from one descriptor row. -/
def tableFromDescRow (uuid : String) (row : TableDescRow) : Table :=
  let parsed := parseEngineFullForTTLAndSettings row.engine_full
  { uuid := uuid
    databaseName := row.database
    name := row.name
    engine := row.engine
    columns := []
    orderBy := if row.sorting_key = "" then [] else parseKeyColumns row.sorting_key
    partitionBy := if row.partition_key = "" then none else some row.partition_key
    primaryKey := if row.primary_key = "" then [] else parseKeyColumns row.primary_key
    sampleBy := if row.sampling_key = "" then none else some row.sampling_key
    ttl := if parsed.1 = "" then none else some parsed.1
    settings := parsed.2
    comment := row.comment }

/-- The body of the `system.columns` row callback in `dbops.GetTable`: empty
default expressions and comments are represented as absent. -/
def tableColumnFromRow (row : ColumnRow) : TableColumn :=
  { name := row.name
    type := row.type
    default := if row.default_expression = "" then none else some row.default_expression
    comment := if row.comment = "" then none else some row.comment }

/-- `dbops.GetTable`, parameterized by the rows the two catalog queries
return.  The descriptor callback overwrites the local `table` pointer per
row (the last row wins); zero rows leave it `nil`, reported as
`.ok none` — absence, not an error. -/
def getTable (uuid : String) (descRows : List TableDescRow) (colRows : List ColumnRow) :
    Except String (Option Table) :=
  match descRows.foldl (fun _ row => some (tableFromDescRow uuid row)) none with
  | none => .ok none
  | some t => .ok (some { t with columns := colRows.map tableColumnFromRow })

/-- `dbops.FindTableByName`, parameterized by the `uuid` values returned by
the name-keyed catalog lookup and by the rows `GetTable` would then see.
The callback overwrites the local `uuid` string per row; if it is still
empty afterwards the function fails with the not-found error. -/
def findTableByName (uuidRows : List String) (descRows : List TableDescRow)
    (colRows : List ColumnRow) : Except String (Option Table) :=
  let uuid := uuidRows.foldl (fun _ u => u) ""
  if uuid = "" then .error "table with such name not found"
  else getTable uuid descRows colRows

/-- `dbops.DeleteTable`, parameterized by the outcome of its internal
`GetTable` call (`lookup`, which may be a transport error) and by the
`Exec` oracle.  Returns the DDL statements sent to `Exec` in order, and the
final error if any. -/
def deleteTable (lookup : Except String (Option Table)) (clusterName : Option String)
    (execErr : String → Option String) : List String × Option String :=
  match lookup with
  | .error e => ([], some e)
  | .ok none => ([], none)
  | .ok (some table) =>
    match dropTableBuild table.databaseName table.name clusterName with
    | .error e => ([], some e)
    | .ok sql => ([sql], execErr sql)

/-- `pkg/resource/table` column model: `name` and `type` are required
attributes, `default` and `comment` are nullable. -/
structure Column where
  name : String
  type : String
  default : Option String
  comment : Option String
deriving DecidableEq, Repr

/-- Convert a resource column to a querybuilder column, as `Resource.Update`
does when assembling `columnsToAdd`. -/
def Column.toTableColumn (c : Column) : TableColumn :=
  { name := c.name, type := c.type, default := c.default, comment := c.comment }

/-- The `columnsToAdd` computation of `Resource.Update`: plan columns whose
name is missing from the state columns (membership via the `stateColumns`
name-keyed map), in plan order. -/
def updateColumnsToAdd (planCols stateCols : List Column) : List TableColumn :=
  (planCols.filter (fun c => !(stateCols.any (fun s => s.name == c.name)))).map Column.toTableColumn

/-- The `columnsToRemove` computation of `Resource.Update`: names of state
columns missing from the plan columns, in state order. -/
def updateColumnsToRemove (planCols stateCols : List Column) : List String :=
  ((stateCols.filter (fun s => !(planCols.any (fun p => p.name == s.name)))).map (fun c => c.name))

/-- Errors surfaced by the modelled `Resource.Update`: the destructive-change
denial carries the exact blocked column names (the Go diagnostic interpolates
them into its message), other build/exec failures carry their message. -/
inductive UpdateError where
  | columnRemovalNotAllowed (blocked : List String)
  | message (msg : String)
deriving DecidableEq, Repr

/-- The add-columns stage of `Resource.Update` (executed after any drops
succeed); `done` is the statement trace so far. -/
def updateApplyAdds (db tbl : String) (cluster : Option String)
    (execErr : String → Option String) (done : List String)
    (columnsToAdd : List TableColumn) : List String × Option UpdateError :=
  if columnsToAdd = [] then (done, none)
  else
    match alterTableAddColumnBuild db tbl columnsToAdd cluster with
    | .error e => (done, some (.message e))
    | .ok sql =>
      match execErr sql with
      | some e => (done ++ [sql], some (.message e))
      | none => (done ++ [sql], none)

/-- `Resource.Update` (the DDL-emitting part): diff plan vs state columns,
gate drops behind `allow_drops`, then drop and add.  The final
`syncTableState` re-read is omitted: it only issues SELECTs, never DDL.
Returns the executed DDL statements in order and the final error. -/
def update (planCols stateCols : List Column) (allowDrops : Bool) (db tbl : String)
    (cluster : Option String) (execErr : String → Option String) :
    List String × Option UpdateError :=
  let columnsToAdd := updateColumnsToAdd planCols stateCols
  let columnsToRemove := updateColumnsToRemove planCols stateCols
  if columnsToRemove = [] then updateApplyAdds db tbl cluster execErr [] columnsToAdd
  else if allowDrops then
    match alterTableDropColumnBuild db tbl columnsToRemove cluster with
    | .error e => ([], some (.message e))
    | .ok sql =>
      match execErr sql with
      | some e => ([sql], some (.message e))
      | none => updateApplyAdds db tbl cluster execErr [sql] columnsToAdd
  else ([], some (.columnRemovalNotAllowed columnsToRemove))

/-- Go map build-then-lookup for `planColumns[colName]` in `ModifyPlan` and
`Update`: when names repeat, the last occurrence wins. -/
def lookupColumn (cols : List Column) (name : String) : Option Column :=
  cols.foldl (fun acc c => if c.name == name then some c else acc) none

/-- Outcome of the modelled `Resource.ModifyPlan`: either the early-return
column-removal diagnostic (issued before any replacement is recorded), or
normal completion with the final `requiresReplace` flag (`true` means the
resource is marked for replacement). -/
inductive PlanOutcome where
  | errorColumnRemovalNotAllowed (colName : String)
  | ok (requiresReplace : Bool)
deriving DecidableEq, Repr

/-- The column loop of `Resource.ModifyPlan` over the state columns, with the
running `requiresReplace` accumulator.  A removed column with
`allow_drops = false` raises the error diagnostic and returns at once —
skipping the ORDER BY check and the final replacement marking. -/
def modifyPlanLoop (planCols : List Column) (orderBySet : List String) (allowDrops : Bool) :
    List Column → Bool → PlanOutcome
  | [], acc => .ok acc
  | stateCol :: rest, acc =>
    match lookupColumn planCols stateCol.name with
    | none =>
      if allowDrops then
        if orderBySet.contains stateCol.name then
          modifyPlanLoop planCols orderBySet allowDrops rest true
        else
          modifyPlanLoop planCols orderBySet allowDrops rest acc
      else .errorColumnRemovalNotAllowed stateCol.name
    | some planCol =>
      if stateCol.type == planCol.type then
        modifyPlanLoop planCols orderBySet allowDrops rest acc
      else
        modifyPlanLoop planCols orderBySet allowDrops rest true

/-- `Resource.ModifyPlan` on an existing resource (destroy and create plans
are skipped upstream), given the parsed state columns, plan columns, the
state ORDER BY column list and the plan's `allow_drops` flag. -/
def modifyPlan (stateCols planCols : List Column) (orderBy : List String)
    (allowDrops : Bool) : PlanOutcome :=
  modifyPlanLoop planCols orderBy allowDrops stateCols false

/-- Whether one state column forces recreation in `ModifyPlan` when drops are
allowed: it was removed while being part of ORDER BY, or its declared type
changed. -/
def colForcesReplace (planCols : List Column) (orderBySet : List String) (c : Column) : Bool :=
  match lookupColumn planCols c.name with
  | none => orderBySet.contains c.name
  | some p => !(c.type == p.type)

/-- `normalizeEngineName`: the engine family, i.e. the trimmed text before
the first parenthesis. -/
def normalizeEngineName (engine : String) : String :=
  match goIndex ['('] engine.data with
  | some idx => String.mk (goTrimSpace (engine.data.take idx))
  | none => String.mk (goTrimSpace engine.data)

/-- The static `cloudTransformations` lookup of `isCloudEngineTransformation`
(declared family ↦ managed "Shared" family). -/
def cloudTransformations : List (String × String) :=
  [("MergeTree", "SharedMergeTree"),
   ("ReplacingMergeTree", "SharedReplacingMergeTree"),
   ("SummingMergeTree", "SharedSummingMergeTree"),
   ("AggregatingMergeTree", "SharedAggregatingMergeTree"),
   ("CollapsingMergeTree", "SharedCollapsingMergeTree"),
   ("VersionedCollapsingMergeTree", "SharedVersionedCollapsingMergeTree")]

/-- `isCloudEngineTransformation`: forward lookup first; otherwise scan for
the reverse direction (a declared "Shared" variant observed as its base). -/
def isCloudEngineTransformation (planned actual : String) : Bool :=
  match mapLookup cloudTransformations planned with
  | some expectedEngine => actual == expectedEngine
  | none => cloudTransformations.any (fun p => planned == p.2 && actual == p.1)

/-- The engine drift-normalization fragment of `syncTableState`: given the
plan's declared engine (`none` when there is no plan or it is null) and the
observed engine, choose the engine string reported in output state. -/
def resolveEngine (planEngine : Option String) (actualEngine : String) : String :=
  match planEngine with
  | none => actualEngine
  | some plannedEngine =>
    if isCloudEngineTransformation (normalizeEngineName plannedEngine)
        (normalizeEngineName actualEngine) then plannedEngine
    else if normalizeEngineName plannedEngine == normalizeEngineName actualEngine then
      plannedEngine
    else actualEngine

/-- Rendering of the specification's description of the engine-descriptor
scan, for comparison with the source's `parseEngineFullForTTLAndSettings`:
the extracted TTL is the whitespace-trimmed text between the first
occurrence of the literal token `TTL ` and the next occurrence of
` SETTINGS` after it, or the end of the string. -/
def specTTLExtract (s : List Char) : List Char :=
  match goIndex ("TTL ".data) s with
  | none => []
  | some i =>
    let after := s.drop (i + ("TTL ".data).length)
    match goIndex (" SETTINGS".data) after with
    | none => goTrimSpace after
    | some j => goTrimSpace (after.take j)

/-- Rendering of the specification's description of one settings piece: kept
exactly when splitting it on `=` yields exactly a key and a value, both
trimmed. -/
def specSettingsPair (piece : List Char) : Option (String × String) :=
  match splitOnChar '=' (goTrimSpace piece) with
  | [k, v] => some (String.mk (goTrimSpace k), String.mk (goTrimSpace v))
  | _ => none

/-- Rendering of the specification's description of the settings extraction:
if the string contains the literal token `SETTINGS `, comma-split the
remainder and collect the kept `key = value` pieces into a map. -/
def specSettingsExtract (s : List Char) : List (String × String) :=
  match goIndex ("SETTINGS ".data) s with
  | none => []
  | some i =>
    ((splitOnChar ',' (s.drop (i + ("SETTINGS ".data).length))).filterMap
        specSettingsPair).foldl
      (fun m kv => mapInsert m kv.1 kv.2) []

/-- The engine-descriptor scan as the specification words it. -/
def specParseEngineFull (engineFull : String) : String × List (String × String) :=
  (String.mk (specTTLExtract engineFull.data), specSettingsExtract engineFull.data)

/-- The settings-accumulation step of the source parser agrees with inserting
the piece's kept key/value pair, when there is one. -/
lemma settingsStep_eq_specSettingsPair (m : List (String × String)) (pair : List Char) :
    (match splitOnChar '=' (goTrimSpace pair) with
      | [k, v] => mapInsert m (String.mk (goTrimSpace k)) (String.mk (goTrimSpace v))
      | _ => m)
    = (match specSettingsPair pair with
      | some kv => mapInsert m kv.1 kv.2
      | none => m) := by
  unfold specSettingsPair
  rcases hsplit : splitOnChar '=' (goTrimSpace pair) with _ | ⟨k, _ | ⟨v, _ | ⟨w, rest⟩⟩⟩ <;>
    simp

/-- The source parser's settings fold agrees with folding insertion over the
kept key/value pairs. -/
lemma settings_foldl_eq_filterMap (pairs : List (List Char)) (m : List (String × String)) :
    pairs.foldl
      (fun m pair =>
        match splitOnChar '=' (goTrimSpace pair) with
        | [k, v] => mapInsert m (String.mk (goTrimSpace k)) (String.mk (goTrimSpace v))
        | _ => m) m
    = (pairs.filterMap specSettingsPair).foldl (fun m kv => mapInsert m kv.1 kv.2) m := by
  induction pairs generalizing m with
  | nil => rfl
  | cons p ps ih =>
    rw [List.foldl_cons, List.filterMap_cons, settingsStep_eq_specSettingsPair m p]
    cases hp : specSettingsPair p with
    | none => simpa using ih m
    | some kv => simpa using ih (mapInsert m kv.1 kv.2)

/-- C9: on every engine-descriptor string, the TTL and settings extracted by
`parseEngineFullForTTLAndSettings` are exactly those described by the
specification: the trimmed text between the first `TTL ` and the next
` SETTINGS` (or end of string) for TTL, and the map of trimmed `key = value`
pieces of the comma-split remainder after `SETTINGS ` for the settings;
both empty when the respective token is absent. -/
theorem parseEngineFull_matches_spec_description (engineFull : String) :
    parseEngineFullForTTLAndSettings engineFull = specParseEngineFull engineFull := by
  unfold parseEngineFullForTTLAndSettings specParseEngineFull specTTLExtract specSettingsExtract
  refine Prod.ext rfl ?_
  show (match goIndex ("SETTINGS ".data) engineFull.data with
        | none => []
        | some idx =>
          (splitOnChar ',' (engineFull.data.drop (idx + 9))).foldl
            (fun m pair =>
              match splitOnChar '=' (goTrimSpace pair) with
              | [k, v] => mapInsert m (String.mk (goTrimSpace k)) (String.mk (goTrimSpace v))
              | _ => m) [])
      = _
  cases hidx : goIndex ("SETTINGS ".data) engineFull.data with
  | none => rfl
  | some idx => exact settings_foldl_eq_filterMap _ []

/-- C3: deleting a table whose catalog lookup reports absence (`GetTable`
returned `nil`) succeeds and executes no statement at all. -/
theorem deleteTable_absent_table_is_success (clusterName : Option String)
    (execErr : String → Option String) :
    deleteTable (.ok none) clusterName execErr = ([], none) := by
  rfl

/-- C6: a uuid whose descriptor query returns zero rows makes `GetTable`
report absence (`.ok none`, no error), while a (database, name) pair that
matches no catalog row makes `FindTableByName` fail with the not-found
error. -/
theorem getTable_absent_vs_findTableByName_not_found :
    (∀ (uuid : String) (colRows : List ColumnRow), getTable uuid [] colRows = .ok none)
    ∧ (∀ (descRows : List TableDescRow) (colRows : List ColumnRow),
        findTableByName [] descRows colRows = .error "table with such name not found") := by
  constructor
  · intro uuid colRows
    rfl
  · intro descRows colRows
    rfl

/-- C7: a declared `MergeTree()` observed as `SharedMergeTree` is reported as
the declared `MergeTree()`, and a declared `SharedMergeTree` observed as
`MergeTree` is likewise retained — the engine-family aliasing applies in
both directions. -/
theorem engine_normalization_bidirectional :
    resolveEngine (some "MergeTree()") "SharedMergeTree" = "MergeTree()"
    ∧ resolveEngine (some "SharedMergeTree") "MergeTree" = "SharedMergeTree" := by
  constructor <;> rfl

/-- C4: the CREATE TABLE builder fails exactly when the database name, table
name or engine is empty or the column list is empty; each of the four
conditions independently suffices, and with all four satisfied the build
succeeds. -/
theorem createTableBuild_error_iff_invalid (q : CreateTableQueryBuilder) :
    isError (createTableBuild q) = true ↔
      (q.databaseName = "" ∨ q.tableName = "" ∨ q.engine = "" ∨ q.columns = []) := by
  unfold createTableBuild
  split_ifs <;> simp_all [isError]

/-- C2: when the update diff finds columns to remove and `allow_drops` is
false, `Update` fails with the destructive-change-denied diagnostic carrying
exactly the blocked column names, and executes no statement at all. -/
theorem update_denied_when_drops_not_allowed (planCols stateCols : List Column)
    (db tbl : String) (cluster : Option String) (execErr : String → Option String)
    (h : updateColumnsToRemove planCols stateCols ≠ []) :
    update planCols stateCols false db tbl cluster execErr
      = ([], some (.columnRemovalNotAllowed (updateColumnsToRemove planCols stateCols))) := by
  unfold update
  simp [h]

/-- C2 witness: a concrete denied update (state has column `c`, plan drops
it, `allow_drops = false`). -/
theorem update_denied_when_drops_not_allowed_witness :
    update [] [⟨"c", "String", none, none⟩] false "db" "t" none (fun _ => none)
      = ([], some (.columnRemovalNotAllowed ["c"])) :=
  update_denied_when_drops_not_allowed [] [⟨"c", "String", none, none⟩] "db" "t" none
    (fun _ => none) (by decide)

/-- C10: when the catalog read yields a table, the one statement `DeleteTable`
executes is the DROP TABLE built from the database and table names of that
catalog read (its uuid argument and any previously stored names never reach
the statement); when the catalog read fails, the error is propagated and no
statement is executed. -/
theorem deleteTable_uses_catalog_names (t : Table) (cluster : Option String)
    (execErr : String → Option String) (e : String)
    (hdb : t.databaseName ≠ "") (hname : t.name ≠ "") :
    (deleteTable (.ok (some t)) cluster execErr).1
        = [dropStatement t.databaseName t.name cluster]
    ∧ deleteTable (.error e) cluster execErr = ([], some e) := by
  constructor
  · unfold deleteTable dropTableBuild
    simp [hdb, hname]
  · rfl

/-- C10 witness: concrete catalog read of `otherdb.renamed`, no cluster. -/
theorem deleteTable_uses_catalog_names_witness :
    (deleteTable
        (.ok (some { uuid := "123e4567-e89b-12d3-a456-426614174000",
                     databaseName := "otherdb", name := "renamed", engine := "MergeTree",
                     columns := [], orderBy := [], partitionBy := none, primaryKey := [],
                     sampleBy := none, ttl := none, settings := [], comment := "" }))
        none (fun _ => none)).1
      = [dropStatement "otherdb" "renamed" none]
    ∧ deleteTable (.error "connection refused") none (fun _ => none)
      = ([], some "connection refused") :=
  deleteTable_uses_catalog_names
    { uuid := "123e4567-e89b-12d3-a456-426614174000",
      databaseName := "otherdb", name := "renamed", engine := "MergeTree",
      columns := [], orderBy := [], partitionBy := none, primaryKey := [],
      sampleBy := none, ttl := none, settings := [], comment := "" }
    none (fun _ => none) "connection refused" (by decide) (by decide)

/-- C5: for desired columns `{a, b}` and observed columns `{a, c}` (matched
by name only — the observed `a` may differ in type, default or comment), the
update diff adds exactly `b` and drops exactly `c`; the column present in
both is neither added nor dropped. -/
theorem update_diff_adds_b_drops_c (A A' B C : Column)
    (hA : A'.name = A.name) (hab : A.name ≠ B.name) (hac : A.name ≠ C.name)
    (hbc : B.name ≠ C.name) :
    updateColumnsToAdd [A, B] [A', C] = [B.toTableColumn]
    ∧ updateColumnsToRemove [A, B] [A', C] = [C.name] := by
  constructor
  · simp [updateColumnsToAdd, hA, hab, hac, hbc, Ne.symm hab, Ne.symm hac, Ne.symm hbc]
  · simp [updateColumnsToRemove, hA, hab, hac, hbc, Ne.symm hab, Ne.symm hac, Ne.symm hbc]

/-- C5 witness: desired `{a, b}` vs observed `{a, c}` with concrete columns
(the observed `a` even has a different type). -/
theorem update_diff_adds_b_drops_c_witness :
    updateColumnsToAdd
        [⟨"a", "UInt64", none, none⟩, ⟨"b", "String", none, none⟩]
        [⟨"a", "UInt32", none, none⟩, ⟨"c", "DateTime", none, none⟩]
      = [⟨"b", "String", none, none⟩]
    ∧ updateColumnsToRemove
        [⟨"a", "UInt64", none, none⟩, ⟨"b", "String", none, none⟩]
        [⟨"a", "UInt32", none, none⟩, ⟨"c", "DateTime", none, none⟩]
      = ["c"] :=
  update_diff_adds_b_drops_c
    ⟨"a", "UInt64", none, none⟩ ⟨"a", "UInt32", none, none⟩
    ⟨"b", "String", none, none⟩ ⟨"c", "DateTime", none, none⟩
    (by decide) (by decide) (by decide) (by decide)

/-- With `allow_drops = true` the `ModifyPlan` column loop never returns
early, and completes with the accumulator OR-ed with the per-column
recreation conditions. -/
lemma modifyPlanLoop_allowed (planCols : List Column) (orderBySet : List String) :
    ∀ (cols : List Column) (acc : Bool),
      modifyPlanLoop planCols orderBySet true cols acc
        = .ok (acc || cols.any (colForcesReplace planCols orderBySet)) := by
  intro cols
  induction cols with
  | nil => intro acc; simp [modifyPlanLoop]
  | cons c rest ih =>
    intro acc
    unfold modifyPlanLoop
    cases hl : lookupColumn planCols c.name with
    | none =>
      by_cases hc : c.name ∈ orderBySet <;>
        simp [hl, hc, ih, colForcesReplace]
    | some p =>
      by_cases ht : (c.type == p.type) = true <;>
        simp [hl, ht, ih, colForcesReplace]

/-- C1 (amended): when `allow_drops` is true, a state column absent from the
plan whose name is in the observed ORDER BY column set makes `ModifyPlan`
mark the resource for replacement.  (When `allow_drops` is false the loop
instead raises the column-removal diagnostic and returns before any
replacement marking — see the counterexample.) -/
theorem modifyPlan_orderBy_drop_when_allowed (stateCols planCols : List Column)
    (orderBy : List String) (c : Column) (hmem : c ∈ stateCols)
    (hgone : lookupColumn planCols c.name = none)
    (hob : orderBy.contains c.name = true) :
    modifyPlan stateCols planCols orderBy true = .ok true := by
  unfold modifyPlan
  rw [modifyPlanLoop_allowed]
  have hmemOb : c.name ∈ orderBy := by simpa using hob
  have hany : stateCols.any (colForcesReplace planCols orderBy) = true :=
    List.any_eq_true.mpr ⟨c, hmem, by simp [colForcesReplace, hgone, hmemOb]⟩
  simp [hany]

/-- C1 amended-claim witness: state column `a` (in ORDER BY) dropped by the
plan with `allow_drops = true` marks replacement. -/
theorem modifyPlan_orderBy_drop_when_allowed_witness :
    modifyPlan [⟨"a", "UInt64", none, none⟩] [⟨"b", "String", none, none⟩] ["a"] true
      = .ok true :=
  modifyPlan_orderBy_drop_when_allowed
    [⟨"a", "UInt64", none, none⟩] [⟨"b", "String", none, none⟩] ["a"]
    ⟨"a", "UInt64", none, none⟩ (by decide) (by decide) (by decide)

/-- C1 counterexample: dropping ORDER BY column `a` with `allow_drops =
false` does NOT mark the resource for replacement — `ModifyPlan` raises the
column-removal diagnostic and returns first, so the must-recreate signal is
not set "regardless of the flag". -/
theorem modifyPlan_orderBy_drop_denied_counterexample :
    modifyPlan [⟨"a", "UInt64", none, none⟩] [⟨"b", "String", none, none⟩] ["a"] false
        = .errorColumnRemovalNotAllowed "a"
    ∧ modifyPlan [⟨"a", "UInt64", none, none⟩] [⟨"b", "String", none, none⟩] ["a"] false
        ≠ .ok true := by
  constructor <;> decide

/-- C8 counterexample: one valid spec whose settings map holds the two
entries `a = 1` and `b = 2`.  Two invocations of `Build` may observe the
map's entries in either order (Go map iteration order is unspecified), and
the two resulting statements are not byte-identical. -/
theorem createTableBuild_settings_order_counterexample :
    [("a", "1"), ("b", "2")].Perm [("b", "2"), ("a", "1")]
    ∧ createTableBuild
        { databaseName := "db", tableName := "t",
          columns := [⟨"id", "UInt64", none, none⟩], clusterName := none,
          engine := "MergeTree()", orderBy := [], partitionBy := none,
          primaryKey := [], sampleBy := none, ttl := none,
          settings := [("a", "1"), ("b", "2")], comment := none }
        = .ok "CREATE TABLE `db`.`t` (`id` UInt64) ENGINE = MergeTree() SETTINGS a = 1, b = 2;"
    ∧ createTableBuild
        { databaseName := "db", tableName := "t",
          columns := [⟨"id", "UInt64", none, none⟩], clusterName := none,
          engine := "MergeTree()", orderBy := [], partitionBy := none,
          primaryKey := [], sampleBy := none, ttl := none,
          settings := [("b", "2"), ("a", "1")], comment := none }
        = .ok "CREATE TABLE `db`.`t` (`id` UInt64) ENGINE = MergeTree() SETTINGS b = 2, a = 1;"
    ∧ ("CREATE TABLE `db`.`t` (`id` UInt64) ENGINE = MergeTree() SETTINGS a = 1, b = 2;"
        ≠ "CREATE TABLE `db`.`t` (`id` UInt64) ENGINE = MergeTree() SETTINGS b = 2, a = 1;") := by
  refine ⟨by decide, rfl, rfl, by decide⟩

/-- C8 (amended): building twice from the same valid spec yields
byte-identical output whenever the settings map has at most one entry (a
second iteration can then only observe the same entry sequence); with two or
more entries the two builds agree only up to the order of the settings
clause.  Stated over two `Build` invocations whose observed settings entry
sequences are permutations of one another. -/
theorem createTableBuild_identical_for_small_settings (q : CreateTableQueryBuilder)
    (s₁ s₂ : List (String × String)) (hperm : s₁.Perm s₂) (hlen : s₁.length ≤ 1) :
    createTableBuild { q with settings := s₁ } = createTableBuild { q with settings := s₂ } := by
  have heq : s₁ = s₂ := by
    match s₁, hlen with
    | [], _ => exact (hperm.symm.eq_nil).symm
    | [a], _ => exact ((List.singleton_perm).mp hperm).symm ▸ rfl
  rw [heq]

/-- C8 amended-claim witness: a one-entry settings map built twice. -/
theorem createTableBuild_identical_for_small_settings_witness :
    createTableBuild
        { databaseName := "db", tableName := "t",
          columns := [⟨"id", "UInt64", none, none⟩], clusterName := none,
          engine := "MergeTree()", orderBy := [], partitionBy := none,
          primaryKey := [], sampleBy := none, ttl := none,
          settings := [("index_granularity", "8192")], comment := none }
      = createTableBuild
        { databaseName := "db", tableName := "t",
          columns := [⟨"id", "UInt64", none, none⟩], clusterName := none,
          engine := "MergeTree()", orderBy := [], partitionBy := none,
          primaryKey := [], sampleBy := none, ttl := none,
          settings := [("index_granularity", "8192")], comment := none } :=
  createTableBuild_identical_for_small_settings
    { databaseName := "db", tableName := "t",
      columns := [⟨"id", "UInt64", none, none⟩], clusterName := none,
      engine := "MergeTree()", orderBy := [], partitionBy := none,
      primaryKey := [], sampleBy := none, ttl := none,
      settings := [], comment := none }
    [("index_granularity", "8192")] [("index_granularity", "8192")]
    (List.Perm.refl _) (by decide)

end Chdbops
